import Mathlib

/-!
Verification of the pibooth-gallery plugin (src/pibooth-gallery.py) against its
natural-language specification.

The Python source is shallowly embedded: the file system is an association
list from paths (lists of components, as in pathlib) to file contents; JSON
values are a small inductive type; Python exceptions are modelled with
`Except Unit`; the points where the environment can fail (directory creation,
PIL thumbnailing, temp-file writing, rename, template I/O) are driven by
explicit boolean fault flags, since the code only branches on whether those
operations raise.  All definitions are executable.
-/

namespace PiboothGallery

/-- JSON values, as produced by `json.load` and consumed by `json.dump`. -/
inductive JVal where
  | null
  | bool (b : Bool)
  | num (n : Int)
  | str (s : String)
  | arr (elems : List JVal)
  | obj (fields : List (String × JVal))

/-- A file-system path, as its list of components (pathlib `Path.parts`). -/
abbrev FsPath := List String

/-- Content of a file in the modelled file system.  `junk` stands for a file
that cannot be read or does not parse as JSON (a torn or corrupted write),
`json v` for a file whose bytes parse to the JSON value `v` (`json.dump` is
deterministic, so value equality models byte equality), `text` for a plain
text file such as the gallery template, `image` for image bytes. -/
inductive FileContent where
  | junk
  | json (v : JVal)
  | text (s : String)
  | image

/-- The modelled file system: an association list from paths to contents. -/
abbrev FS := List (FsPath × FileContent)

/-- Look up the content of a file (first binding wins). -/
def fsLookup : FS → FsPath → Option FileContent
  | [], _ => none
  | (q, c) :: rest, p => if q = p then some c else fsLookup rest p

/-- Remove all bindings of a path. -/
def fsErase : FS → FsPath → FS
  | [], _ => []
  | (q, c) :: rest, p => if q = p then fsErase rest p else (q, c) :: fsErase rest p

/-- Write (create or overwrite) a file. -/
def fsSet (fs : FS) (p : FsPath) (c : FileContent) : FS := (p, c) :: fsErase fs p

/-- Python `Path.exists()` on the modelled file system. -/
def pathExists (fs : FS) (p : FsPath) : Bool := (fsLookup fs p).isSome

/-- Python `Path.name`: the final path component. -/
def lastName (p : FsPath) : String := p.getLast?.getD ""

/-- Python `Path.parent`: the path without its final component. -/
def parentOf (p : FsPath) : FsPath := p.dropLast

/-- Python `dir / name`: append one component. -/
def childPath (d : FsPath) (n : String) : FsPath := d ++ [n]

/-- Index of the last `.` in a list of characters, if any (Python `str.rfind`). -/
def lastDotIdx : List Char → Option Nat
  | [] => none
  | c :: rest =>
    match lastDotIdx rest with
    | some i => some (i + 1)
    | none => if c = '.' then some 0 else none

/-- Python pathlib `Path.stem` of a file name: the name up to the last dot,
provided that dot is neither the first nor the last character. -/
def stemOf (n : String) : String :=
  match lastDotIdx n.data with
  | some i => if 0 < i ∧ i + 1 < n.data.length then String.mk (n.data.take i) else n
  | none => n

/-- Python pathlib `Path.suffix` of a file name: the last dot and everything
after it, provided that dot is neither the first nor the last character. -/
def suffixOf (n : String) : String :=
  match lastDotIdx n.data with
  | some i => if 0 < i ∧ i + 1 < n.data.length then String.mk (n.data.drop i) else ""
  | none => ""

/-- Python `str.rstrip("/")`: remove all trailing slashes. -/
def rstripSlashes (s : String) : String :=
  String.mk ((s.data.reverse.dropWhile (· = '/')).reverse)

/-- Embedding of `_url_join` (src line 183): `if not base: return name;
return base.rstrip("/") + "/" + name`.  A `none` or empty base is falsy. -/
def url_join (base : Option String) (name : String) : String :=
  match base with
  | none => name
  | some b => if b = "" then name else rstripSlashes b ++ "/" ++ name

/-- Python truthiness of an optional string (`None` and `''` are falsy). -/
def strTruthy : Option String → Bool
  | none => false
  | some s => !decide (s = "")

/-- Python `str.lower()` (the configuration tokens are ASCII, so ASCII
lowering is an exact model here), written structurally over the character
list so that it evaluates on concrete inputs. -/
def lowerStr (s : String) : String := String.mk (s.data.map Char.toLower)

/-- Membership of a lowered string in the tuple `('1', 'true', 'yes', 'on')`
used by `pibooth_startup` for boolean options (src lines 65, 73, 75, 77, 98). -/
def tokenTrue (s : String) : Bool :=
  decide (lowerStr s = "1") || decide (lowerStr s = "true") ||
    decide (lowerStr s = "yes") || decide (lowerStr s = "on")

/-- Python `raw or default` on an optional config string: `None` and the
empty string are replaced by the default. -/
def pyOrDefault (raw : Option String) (dflt : String) : String :=
  match raw with
  | none => dflt
  | some s => if s = "" then dflt else s

/-- Embedding of the boolean-option resolution in `pibooth_startup` for
GALLERY options (src line 65 and the like):
`(cfg.get(...) or 'yes').lower() in ('1', 'true', 'yes', 'on')`. -/
def resolve_gallery_bool (raw : Option String) : Bool :=
  tokenTrue (pyOrDefault raw "yes")

/-- Embedding of the QRCODE `save` resolution in `pibooth_startup`
(src lines 97-98): `cfg.get('QRCODE', 'save', fallback=None)` yields `none`
when the section is absent, and then `qrcode_save` is `False`; otherwise
`str(raw).lower() in ('1', 'true', 'yes', 'on')`. -/
def resolve_qrcode_save (raw : Option String) : Bool :=
  match raw with
  | none => false
  | some s => tokenTrue s

/-- Look up a key in a JSON object's field list (Python `dict` lookup). -/
def lookupField : List (String × JVal) → String → Option JVal
  | [], _ => none
  | (k, v) :: rest, key => if k = key then some v else lookupField rest key

/-- Whether a JSON value is an object (a Python `dict`). -/
def isObj : JVal → Bool
  | .obj _ => true
  | _ => false

/-- Whether every element of a list of JSON values is an object. -/
def allObjs (xs : List JVal) : Bool := xs.all isObj

/-- Python `e.get(key) != s` for a JSON value `e` and string `s`:
on a dict, `dict.get` yields the value or `None`, and only an equal string
compares equal to `s`; on any non-dict value, `.get` does not exist and an
`AttributeError` is raised. -/
def pyGetNe (e : JVal) (key s : String) : Except Unit Bool :=
  match e with
  | .obj fields =>
    match lookupField fields key with
    | some (.str t) => .ok (!decide (t = s))
    | some _ => .ok true
    | none => .ok true
  | _ => .error ()

/-- Embedding of the dedup list comprehension (src line 338):
`[e for e in manifest if e.get("filename") != full_rel and e.get("full") != full_url]`.
The comprehension raises as soon as an element has no `.get`. -/
def dedupFilter : List JVal → String → String → Except Unit (List JVal)
  | [], _, _ => .ok []
  | e :: rest, fr, fu =>
    match pyGetNe e "filename" fr, pyGetNe e "full" fu with
    | .ok k1, .ok k2 =>
      match dedupFilter rest fr fu with
      | .ok tail => .ok (if k1 && k2 then e :: tail else tail)
      | .error er => .error er
    | _, _ => .error ()

/-- Total (never-raising) version of the keep condition of the dedup
comprehension, meaningful on objects: keep an entry iff its `filename` value
differs from `fr` and its `full` value differs from `fu`. -/
def fieldNe (fields : List (String × JVal)) (key s : String) : Bool :=
  match lookupField fields key with
  | some (.str t) => !decide (t = s)
  | _ => true

/-- Whether the dedup comprehension keeps a JSON object. -/
def keepB (e : JVal) (fr fu : String) : Bool :=
  match e with
  | .obj fields => fieldNe fields "filename" fr && fieldNe fields "full" fu
  | _ => true

/-- The in-memory part of the manifest sync (src lines 338-344): filter out
entries matching the new entry's `filename` or `full`, then insert the new
entry at index 0.  Raises exactly when the comprehension raises. -/
def syncList (prior : List JVal) (entry : JVal) (fr fu : String) :
    Except Unit (List JVal) :=
  match dedupFilter prior fr fu with
  | .error er => .error er
  | .ok filtered => .ok (entry :: filtered)

/-- Whether a JSON value is an object whose `filename` field is the string `fr`. -/
def hasFname (e : JVal) (fr : String) : Bool :=
  match e with
  | .obj fields =>
    match lookupField fields "filename" with
    | some (.str t) => decide (t = fr)
    | _ => false
  | _ => false

/-- Number of entries of a manifest whose `filename` field is the string `fr`. -/
def countFname (xs : List JVal) (fr : String) : Nat :=
  xs.countP (fun e => hasFname e fr)

/-- Whether a JSON value is an object that has the given key. -/
def hasKey (e : JVal) (key : String) : Bool :=
  match e with
  | .obj fields => (lookupField fields key).isSome
  | _ => false

/-- Reading a file's bytes and parsing them with `json.load`: succeeds
exactly on files that hold well-formed JSON; an unreadable file, non-JSON
text, or image bytes raise. -/
def parseJson : FileContent → Except Unit JVal
  | .json v => .ok v
  | _ => .error ()

/-- Embedding of `_load_manifest` (src lines 159-168): if the file exists and
`json.load` yields a `list`, return it; on a read or parse error, an absent
file, or a non-list JSON value, return the empty list.  The `try/except`
makes the function total: it never raises. -/
def load_manifest (fs : FS) (p : FsPath) : List JVal :=
  match fsLookup fs p with
  | none => []
  | some c =>
    match parseJson c with
    | .error _ => []
    | .ok (.arr xs) => xs
    | .ok _ => []

/-- Fault flags for `_write_manifest_atomic`: whether `mkdir`, the temp-file
`json.dump`, and the final `Path.replace` raise. -/
structure WriteFlags where
  mkdirFails : Bool
  dumpFails : Bool
  renameFails : Bool

/-- Embedding of `_write_manifest_atomic` (src lines 171-180).  `tmp` is the
fresh name that `tempfile.NamedTemporaryFile(dir=manifest_path.parent)`
chooses inside the destination's own directory.  The body runs under
`try/except`, so every failure yields `false` instead of raising; a failed
`json.dump` leaves a partial temp file behind; only the final rename ever
touches the destination path. -/
def write_manifest_atomic (fs : FS) (w : WriteFlags) (tmp : String)
    (mpath : FsPath) (data : List JVal) : FS × Bool :=
  if w.mkdirFails then (fs, false)
  else
    let tmpPath := childPath (parentOf mpath) tmp
    if w.dumpFails then (fsSet fs tmpPath .junk, false)
    else
      let fs1 := fsSet fs tmpPath (.json (.arr data))
      if w.renameFails then (fs1, false)
      else (fsSet (fsErase fs1 tmpPath) mpath (.json (.arr data)), true)

/-- The shared application object, as populated by `pibooth_startup` and read
and written by the per-capture callback.  Option-valued attributes fold
Python's `None`, an unset attribute, and a falsy (empty) value into `none`;
attribute values holding a file name are modelled directly as paths.
`qrcode_wait_ms` is `qrcode_wait_seconds` in milliseconds (the poll interval,
hard-coded to `0.1` seconds at the call site, is 100). -/
structure App where
  gallery_enabled : Bool
  previous_picture_file : Option FsPath
  last_picture : Option FsPath
  last_saved_file : Option FsPath
  picture_file : Option FsPath
  previous_thumbnail_file : Option FsPath
  previous_picture_files : Option (List FsPath)
  gallery_size : String
  gallery_suffix : String
  gallery_quality : Int
  gallery_output_folder : String
  gallery_keep_aspect : Bool
  gallery_update_manifest : Bool
  gallery_manifest_name : String
  gallery_manifest_include_base_url : Bool
  gallery_base_url : Option String
  gallery_template : Option FsPath
  gallery_output : String
  qrcode_save : Bool
  qrcode_suffix : String
  qrcode_ext : String
  qrcode_save_path : Option FsPath
  qrcode_wait_ms : Nat
  qrcode_file : Option FsPath
  qrcode_saved_file : Option FsPath
  qrcode_filename : Option FsPath
  qrcode_path : Option FsPath
  qrcode : Option FsPath
  output_dir : Option FsPath

/-- The filename-discovery probe of `state_processing_exit` (src lines
267-276): `previous_picture_file` first, then the legacy aliases
`last_picture`, `last_saved_file`, `picture_file`, first truthy value wins. -/
def discover_filename (app : App) : Option FsPath :=
  match app.previous_picture_file with
  | some p => some p
  | none =>
    match app.last_picture with
    | some p => some p
    | none =>
      match app.last_saved_file with
      | some p => some p
      | none => app.picture_file

/-- Step 1 of `_locate_qrcode_for_image` (src lines 198-209): probe the
attributes `qrcode_file`, `qrcode_saved_file`, `qrcode_filename`,
`qrcode_path`, `qrcode` in order; the first one holding a path to an
existing file wins.  This probe runs regardless of `qrcode_save`. -/
def qrAttrProbe (app : App) (fs : FS) : Option FsPath :=
  [app.qrcode_file, app.qrcode_saved_file, app.qrcode_filename,
    app.qrcode_path, app.qrcode].findSome?
    (fun a =>
      match a with
      | some p => if pathExists fs p then some p else none
      | none => none)

/-- Whether none of the five QR-related shared-context attributes is set. -/
def qrAttrsUnset (app : App) : Bool :=
  app.qrcode_file.isNone && app.qrcode_saved_file.isNone &&
    app.qrcode_filename.isNone && app.qrcode_path.isNone && app.qrcode.isNone

/-- Embedding of `_locate_qrcode_for_image` (src lines 189-243): attribute
probe first; then, only if `qrcode_save` is set, search for
`stem + qrcode_suffix + "." + qrcode_ext` in the explicit save directory,
the host output directory, and the picture's own directory, in order. -/
def locate_qrcode_for_image (found : FsPath) (app : App) (fs : FS) :
    Option FsPath :=
  match qrAttrProbe app fs with
  | some p => some p
  | none =>
    if !app.qrcode_save then none
    else
      let sfx := if app.qrcode_suffix = "" then "_qrcode" else app.qrcode_suffix
      let ext := if app.qrcode_ext = "" then "png" else app.qrcode_ext
      let expected := stemOf (lastName found) ++ sfx ++ "." ++ ext
      let dirs :=
        (match app.qrcode_save_path with | some d => [d] | none => []) ++
          (match app.output_dir with | some d => [d] | none => []) ++
          [parentOf found]
      dirs.findSome?
        (fun d =>
          if pathExists fs (childPath d expected) then some (childPath d expected)
          else none)

/-- The iteration core of `_wait_for_qrcode`: at time `t`, with `fuel`
iterations of the `while` loop left to run, poll `locate` and sleep 100 ms
(the hard-coded `poll=0.1` of the call site) between polls.  Returns the
located path (or `none`) together with the number of locate attempts made. -/
def waitIter (locate : Nat → Option FsPath) : Nat → Nat → Option FsPath × Nat
  | _, 0 => (none, 0)
  | t, fuel + 1 =>
    match locate t with
    | some p => (some p, 1)
    | none =>
      let r := waitIter locate (t + 100) fuel
      (r.1, r.2 + 1)

/-- Embedding of `_wait_for_qrcode` (src lines 246-257) over discrete
millisecond time: `end = time.time() + timeout; while time.time() < end`,
polling and sleeping 100 ms per iteration.  Time strictly increases by the
poll interval on every iteration, which is exactly why the Python loop
terminates; the loop body therefore runs exactly `⌈(end - t) / 100⌉` times,
the iteration budget passed to `waitIter`. -/
def wait_for_qrcode (locate : Nat → Option FsPath) (endt t : Nat) :
    Option FsPath × Nat :=
  waitIter locate t ((endt - t + 99) / 100)

/-- The instants at which `fuel` further iterations of the poll loop sample
the locator: `t`, `t + 100`, and so on. -/
def pollTimesIter : Nat → Nat → List Nat
  | _, 0 => []
  | t, fuel + 1 => t :: pollTimesIter (t + 100) fuel

/-- The instants at which the poll loop of `_wait_for_qrcode` samples the
locator: `t`, `t + 100`, ... strictly below `endt`. -/
def pollTimes (endt t : Nat) : List Nat :=
  pollTimesIter t ((endt - t + 99) / 100)

/-- The thumbnail file name `stem + suffix + original-extension` used by
`_make_output_path` (src lines 145-146). -/
def thumbName (found : FsPath) (sfx : String) : String :=
  stemOf (lastName found) ++ sfx ++ suffixOf (lastName found)

/-- Embedding of `_make_output_path` (src lines 141-146).  With a configured
output folder the function first creates the folder with `outdir.mkdir(...)`,
which can raise — and no caller catches that exception; `mkdirFails` drives
it.  Without an output folder no directory is created and nothing can raise. -/
def make_output_path (found : FsPath) (sfx outputFolder : String)
    (mkdirFails : Bool) : Except Unit FsPath :=
  if outputFolder = "" then .ok (childPath (parentOf found) (thumbName found sfx))
  else if mkdirFails then .error ()
  else .ok (parentOf found ++ [outputFolder, thumbName found sfx])

/-- Python `str(p.relative_to(base))` with the surrounding `try/except`
fallback to `p.name` (src lines 319-322 and 331-334): if `base` is a prefix
of `p`, the remaining components joined with `/` (or `"."` when they
coincide); otherwise `relative_to` raises and the name is used. -/
def relTo : FsPath → FsPath → Option (List String)
  | p, [] => some p
  | [], _ :: _ => none
  | a :: p, b :: q => if b = a then relTo p q else none

/-- See `relTo`: the string Python ends up with for the manifest entry. -/
def relName (p : FsPath) (base : FsPath) : String :=
  match relTo p base with
  | some [] => "."
  | some comps => String.intercalate "/" comps
  | none => lastName p

/-- The field list of a manifest entry (src lines 340-342): `thumb`, `full`,
`filename`, and `qrcode` only when a truthy (non-empty) QR URL was found. -/
def entryFields (thumb_url full_url full_rel : String)
    (qrcode_url : Option String) : List (String × JVal) :=
  [("thumb", .str thumb_url), ("full", .str full_url),
    ("filename", .str full_rel)] ++
    (match qrcode_url with
     | some q => if q = "" then [] else [("qrcode", .str q)]
     | none => [])

/-- The base URL used for manifest entries (src line 325): the configured
one, but only when `gallery_manifest_include_base_url` is set. -/
def eventBaseUrl (app : App) : Option String :=
  if app.gallery_manifest_include_base_url then app.gallery_base_url else none

/-- The `thumb` URL of the new manifest entry (src lines 319-326). -/
def eventThumbUrl (app : App) (found thumb_path : FsPath) : String :=
  let thumb_rel := relName thumb_path (parentOf found)
  if strTruthy (eventBaseUrl app) then url_join (eventBaseUrl app) thumb_rel
  else thumb_rel

/-- The `full` URL of the new manifest entry (src lines 323, 327). -/
def eventFullUrl (app : App) (found : FsPath) : String :=
  if strTruthy (eventBaseUrl app) then url_join (eventBaseUrl app) (lastName found)
  else lastName found

/-- The optional `qrcode` URL of the new manifest entry (src lines 329-335). -/
def eventQrUrl (app : App) (found : FsPath) (qrp : Option FsPath) :
    Option String :=
  match qrp with
  | none => none
  | some qp =>
    some (if strTruthy (eventBaseUrl app) then
            url_join (eventBaseUrl app) (relName qp (parentOf found))
          else relName qp (parentOf found))

/-- Construction of the new manifest entry and of the dedup keys inside the
manifest block of `state_processing_exit` (src lines 319-342): returns
`(new_entry, full_rel, full_url)`. -/
def mkEventEntry (app : App) (found thumb_path : FsPath)
    (qrp : Option FsPath) : JVal × String × String :=
  (.obj (entryFields (eventThumbUrl app found thumb_path)
      (eventFullUrl app found) (lastName found) (eventQrUrl app found qrp)),
    lastName found, eventFullUrl app found)

/-- The manifest block of `state_processing_exit` (src lines 315-352): when
manifest updating is enabled, load, dedup, prepend and write atomically.  The
whole block runs under `try/except`, so a raising dedup comprehension is
caught and leaves the file system as it was; a failed atomic write only
affects the returned success flag, which is merely logged. -/
def manifestStage (app : App) (fs : FS) (w : WriteFlags) (tmp : String)
    (found thumb_path : FsPath) (qrp : Option FsPath) : FS :=
  if !app.gallery_update_manifest then fs
  else
    let mpath := childPath (parentOf found) app.gallery_manifest_name
    let ed := mkEventEntry app found thumb_path qrp
    let manifest := load_manifest fs mpath
    match syncList manifest ed.1 ed.2.1 ed.2.2 with
    | .error _ => fs
    | .ok newList => (write_manifest_atomic fs w tmp mpath newList).1

/-- The attribute publication of `state_processing_exit` (src lines 296-310):
set `previous_picture_file`, `previous_thumbnail_file`, and push the picture
onto `previous_picture_files` (creating the list when absent). -/
def publishAttrs (app : App) (found thumb_path : FsPath) : App :=
  { app with
    previous_picture_file := some found
    previous_thumbnail_file := some thumb_path
    previous_picture_files := some (found :: app.previous_picture_files.getD []) }

/-- The gallery block of `state_processing_exit` (src lines 354-365): when a
template is configured and exists, copy it verbatim over
`found.parent / gallery_output`.  Reads and writes run under `try/except`; a
failed `open("w")`/`write` leaves a truncated destination behind. -/
def galleryStage (app : App) (fs : FS) (readFails writeFails : Bool)
    (found : FsPath) : FS :=
  match app.gallery_template with
  | none => fs
  | some tpl =>
    if !pathExists fs tpl then fs
    else
      let gpath := childPath (parentOf found) app.gallery_output
      if readFails then fs
      else if writeFails then fsSet fs gpath .junk
      else
        match fsLookup fs tpl with
        | some c => fsSet fs gpath c
        | none => fs

/-- Fault flags for one run of the per-capture callback. -/
structure Oracle where
  mkdirFails : Bool
  thumbFails : Bool
  manifestWrite : WriteFlags
  tplReadFails : Bool
  tplWriteFails : Bool

/-- The tail of the per-capture callback once the thumbnail has been written
(src lines 296-365): write the thumbnail file, publish the shared-context
attributes, wait for a QR code, run the manifest block, copy the gallery
template. -/
def afterThumb (app : App) (fs : FS) (o : Oracle) (tmp : String)
    (found thumb_path : FsPath) : App × FS :=
  let fs1 := fsSet fs thumb_path .image
  let app1 := publishAttrs app found thumb_path
  let qrp :=
    (wait_for_qrcode (fun _ => locate_qrcode_for_image found app1 fs1)
      app1.qrcode_wait_ms 0).1
  let fs2 := manifestStage app1 fs1 o.manifestWrite tmp found thumb_path qrp
  let fs3 := galleryStage app1 fs2 o.tplReadFails o.tplWriteFails found
  (app1, fs3)

/-- Embedding of the per-capture callback `state_processing_exit`
(src lines 260-365).  An `.error` result is an exception propagating out of
the callback into the host.  The stages in order: enabled check, filename
discovery, existence check, thumbnail output path (where `mkdir` can raise
outside every `try`), thumbnail generation (whose failure is caught and
aborts the rest), then `afterThumb`.  `tmp` is the fresh temp-file name used
by the atomic manifest write. -/
def state_processing_exit (app : App) (fs : FS) (o : Oracle) (tmp : String) :
    Except Unit (App × FS) :=
  if !app.gallery_enabled then .ok (app, fs)
  else
    match discover_filename app with
    | none => .ok (app, fs)
    | some found =>
      if !pathExists fs found then .ok (app, fs)
      else
        match make_output_path found app.gallery_suffix app.gallery_output_folder
            o.mkdirFails with
        | .error er => .error er
        | .ok thumb_path =>
          if o.thumbFails then .ok (app, fs)
          else .ok (afterThumb app fs o tmp found thumb_path)

/-! Auxiliary definitions and concrete fixtures used by the theorems,
their witnesses and counterexamples below. -/

/-- Whether a callback run completed without an exception escaping. -/
def exOk {α : Type} : Except Unit α → Bool
  | .ok _ => true
  | .error _ => false

/-- The final file system of a callback run (empty on a propagated
exception); used to state concrete counterexamples. -/
def resultFS (r : Except Unit (App × FS)) : FS :=
  match r with
  | .ok x => x.2
  | .error _ => []

/-- A plain prior manifest entry for an unrelated picture `photo2.jpg`. -/
def obj2 : JVal :=
  .obj [("thumb", .str "photo2_thumb.jpg"), ("full", .str "photo2.jpg"),
    ("filename", .str "photo2.jpg")]

/-- A fresh manifest entry for `photo1.jpg`, with no QR code. -/
def entry1 : JVal := .obj (entryFields "photo1_thumb.jpg" "photo1.jpg" "photo1.jpg" none)

/-- A prior manifest entry list with a duplicated `filename` value. -/
def objDupA : JVal := .obj [("filename", .str "a.jpg")]

/-- A baseline shared application object: plugin enabled, picture
`pics/photo1.jpg` published, default gallery settings, QR support disabled,
no template, manifest updating on. -/
def app0 : App where
  gallery_enabled := true
  previous_picture_file := some ["pics", "photo1.jpg"]
  last_picture := none
  last_saved_file := none
  picture_file := none
  previous_thumbnail_file := none
  previous_picture_files := none
  gallery_size := "300x300"
  gallery_suffix := "_thumb"
  gallery_quality := 85
  gallery_output_folder := ""
  gallery_keep_aspect := true
  gallery_update_manifest := true
  gallery_manifest_name := "thumbs.json"
  gallery_manifest_include_base_url := true
  gallery_base_url := none
  gallery_template := none
  gallery_output := "gallery.html"
  qrcode_save := false
  qrcode_suffix := "_qrcode"
  qrcode_ext := "png"
  qrcode_save_path := none
  qrcode_wait_ms := 100
  qrcode_file := none
  qrcode_saved_file := none
  qrcode_filename := none
  qrcode_path := none
  qrcode := none
  output_dir := none

/-- A fault-free oracle. -/
def oracle0 : Oracle := ⟨false, false, ⟨false, false, false⟩, false, false⟩

/-- A file system holding just the saved picture. -/
def fs0 : FS := [(["pics", "photo1.jpg"], .image)]

/-- A file system holding the picture and a prior manifest with the
unrelated entry for `photo2.jpg`. -/
def fsPrior : FS := [(["pics", "photo1.jpg"], .image),
  (["pics", "thumbs.json"], .json (.arr [obj2]))]

/-- A file system whose manifest is a JSON array holding a non-object
element (the string `"oops"`). -/
def fsBad : FS := [(["pics", "photo1.jpg"], .image),
  (["pics", "thumbs.json"], .json (.arr [.str "oops"]))]

/-- The application object of the C3 counterexample: a thumbnail output
subfolder is configured, so `_make_output_path` runs `outdir.mkdir(...)`. -/
def appX : App := { app0 with gallery_output_folder := "thumbs" }

/-- The oracle of the C3 counterexample: that `mkdir` call raises. -/
def oracleX : Oracle := { oracle0 with mkdirFails := true }

/-- The oracle of the C4 witness: thumbnail generation raises. -/
def oracleT : Oracle := { oracle0 with thumbFails := true }

/-- The application object of the C7 counterexample: the QRCODE section is
absent, so `qrcode_save` resolves to false — but another plugin has published
a `qrcode_file` shared-context attribute. -/
def appQ : App := { app0 with
  qrcode_save := resolve_qrcode_save none
  qrcode_file := some ["pics", "photo1_qrcode.png"] }

/-- The file system of the C7 counterexample: the picture and the QR file
that the foreign attribute points at. -/
def fsQ : FS := [(["pics", "photo1.jpg"], .image),
  (["pics", "photo1_qrcode.png"], .image)]

/-! Helper lemmas about the file-system model. -/

theorem fsLookup_fsErase (fs : FS) (p q : FsPath) :
    fsLookup (fsErase fs p) q = if q = p then none else fsLookup fs q := by
  induction fs with
  | nil => simp [fsErase, fsLookup]
  | cons hd rest ih =>
    obtain ⟨r, c⟩ := hd
    rw [fsErase]
    by_cases hrp : r = p
    · rw [if_pos hrp, ih, fsLookup]
      by_cases hqp : q = p
      · simp [hqp]
      · have hrq : ¬r = q := by
          rw [hrp]; exact fun hh => hqp hh.symm
        simp [hqp, hrq]
    · rw [if_neg hrp, fsLookup, fsLookup]
      by_cases hrq : r = q
      · have hqp : ¬q = p := by
          rw [← hrq]; exact hrp
        simp [hrq, hqp]
      · simp [hrq, ih]

theorem fsLookup_fsSet (fs : FS) (p q : FsPath) (c : FileContent) :
    fsLookup (fsSet fs p c) q = if q = p then some c else fsLookup fs q := by
  by_cases hqp : q = p
  · subst hqp
    simp [fsSet, fsLookup]
  · have hpq : ¬p = q := fun hh => hqp hh.symm
    simp only [fsSet, fsLookup]
    rw [if_neg hpq, fsLookup_fsErase, if_neg hqp, if_neg hqp]

theorem childPath_inj (d : FsPath) (a b : String) :
    childPath d a = childPath d b ↔ a = b := by
  simp [childPath]

theorem parentOf_childPath (d : FsPath) (n : String) :
    parentOf (childPath d n) = d := by
  simp [parentOf, childPath, List.dropLast_concat]

/-! Helper lemmas about manifest loading and the dedup comprehension. -/

theorem load_manifest_eq_of_lookup (fs : FS) (p : FsPath) (xs : List JVal)
    (h : fsLookup fs p = some (.json (.arr xs))) : load_manifest fs p = xs := by
  simp [load_manifest, h, parseJson]

theorem load_manifest_fsSet_ne (fs : FS) (p q : FsPath) (c : FileContent)
    (h : p ≠ q) : load_manifest (fsSet fs q c) p = load_manifest fs p := by
  simp [load_manifest, fsLookup_fsSet, h]

theorem pyGetNe_obj (fields : List (String × JVal)) (key s : String) :
    pyGetNe (.obj fields) key s = .ok (fieldNe fields key s) := by
  simp only [pyGetNe, fieldNe]
  rcases lookupField fields key with _ | v
  · rfl
  · cases v <;> rfl

theorem dedupFilter_eq_filter (xs : List JVal) (fr fu : String)
    (h : allObjs xs = true) :
    dedupFilter xs fr fu = .ok (xs.filter (fun e => keepB e fr fu)) := by
  induction xs with
  | nil => rfl
  | cons e rest ih =>
    rw [allObjs, List.all_cons, Bool.and_eq_true] at h
    obtain ⟨he, hrest⟩ := h
    cases e with
    | obj fields =>
      rw [dedupFilter, pyGetNe_obj, pyGetNe_obj, ih hrest]
      simp [keepB, List.filter_cons]
    | null => simp [isObj] at he
    | bool b => simp [isObj] at he
    | num n => simp [isObj] at he
    | str s => simp [isObj] at he
    | arr l => simp [isObj] at he

theorem dedupFilter_error (xs : List JVal) (fr fu : String)
    (h : allObjs xs = false) : dedupFilter xs fr fu = .error () := by
  induction xs with
  | nil => simp [allObjs] at h
  | cons e rest ih =>
    rw [allObjs, List.all_cons, Bool.and_eq_false_iff] at h
    rcases h with he | hrest
    · cases e with
      | obj fields => simp [isObj] at he
      | null => rfl
      | bool b => rfl
      | num n => rfl
      | str s => rfl
      | arr l => rfl
    · cases e with
      | obj fields =>
        rw [dedupFilter, pyGetNe_obj, pyGetNe_obj, ih hrest]
      | null => rfl
      | bool b => rfl
      | num n => rfl
      | str s => rfl
      | arr l => rfl

theorem keepB_hasFname (e : JVal) (fr fu : String) (h : keepB e fr fu = true) :
    hasFname e fr = false := by
  cases e with
  | obj fields =>
    rw [keepB, Bool.and_eq_true] at h
    obtain ⟨h1, _⟩ := h
    rw [fieldNe] at h1
    rw [hasFname]
    rcases hl : lookupField fields "filename" with _ | v
    · rfl
    · rw [hl] at h1
      cases v <;> simp_all
  | null => rfl
  | bool b => rfl
  | num n => rfl
  | str s => rfl
  | arr l => rfl

theorem countFname_filter_keep (xs : List JVal) (fr fu : String) :
    countFname (xs.filter (fun e => keepB e fr fu)) fr = 0 := by
  rw [countFname, List.countP_eq_zero]
  intro e he
  rw [List.mem_filter] at he
  simp [keepB_hasFname e fr fu he.2]

theorem countFname_filter_le (xs : List JVal) (p : JVal → Bool) (g : String) :
    countFname (xs.filter p) g ≤ countFname xs g :=
  (List.filter_sublist xs).countP_le _

theorem allObjs_filter (xs : List JVal) (p : JVal → Bool)
    (h : allObjs xs = true) : allObjs (xs.filter p) = true := by
  rw [allObjs, List.all_eq_true] at h ⊢
  intro e he
  exact h e (List.mem_filter.mp he).1

theorem filter_keepB_idem (xs : List JVal) (fr fu : String) :
    (xs.filter (fun e => keepB e fr fu)).filter (fun e => keepB e fr fu) =
      xs.filter (fun e => keepB e fr fu) := by
  rw [List.filter_eq_self]
  intro e he
  exact (List.mem_filter.mp he).2

/-! Helper lemmas about manifest entries. -/

theorem lookupField_entryFields_filename (tu fu fr : String)
    (qo : Option String) :
    lookupField (entryFields tu fu fr qo) "filename" = some (.str fr) := by
  rcases qo with _ | q
  · rfl
  · by_cases hq : q = "" <;> simp [entryFields, hq, lookupField]

theorem keepB_entry_self (tu fu fr : String) (qo : Option String) :
    keepB (.obj (entryFields tu fu fr qo)) fr fu = false := by
  rw [keepB, fieldNe, lookupField_entryFields_filename]
  simp

theorem hasFname_entry (tu fu fr g : String) (qo : Option String) :
    hasFname (.obj (entryFields tu fu fr qo)) g = decide (fr = g) := by
  rw [hasFname, lookupField_entryFields_filename]

theorem hasKey_entry_qrcode_none (tu fu fr : String) :
    hasKey (.obj (entryFields tu fu fr none)) "qrcode" = false := by
  rfl

theorem isObj_entry (tu fu fr : String) (qo : Option String) :
    isObj (.obj (entryFields tu fu fr qo)) = true := rfl

theorem mkEventEntry_shape (app : App) (found thumb_path : FsPath)
    (qrp : Option FsPath) :
    ∃ tu qo, mkEventEntry app found thumb_path qrp =
      (.obj (entryFields tu
          ((mkEventEntry app found thumb_path qrp).2.2)
          ((mkEventEntry app found thumb_path qrp).2.1) qo),
        lastName found,
        (mkEventEntry app found thumb_path qrp).2.2) := by
  rcases qrp with _ | qp
  · exact ⟨_, none, rfl⟩
  · exact ⟨_, some _, rfl⟩

theorem mkEventEntry_keys_independent (app : App) (found thumb_path : FsPath)
    (qr1 qr2 : Option FsPath) :
    (mkEventEntry app found thumb_path qr1).2 =
      (mkEventEntry app found thumb_path qr2).2 := rfl

/-! Helper lemmas about the QR wait loop. -/

theorem waitIter_const_none (t fuel : Nat) :
    (waitIter (fun _ => none) t fuel).1 = none := by
  induction fuel generalizing t with
  | zero => rfl
  | succ n ih => simpa [waitIter] using ih (t + 100)

theorem wait_for_qrcode_const_none (endt t : Nat) :
    (wait_for_qrcode (fun _ => none) endt t).1 = none :=
  waitIter_const_none t _

theorem waitIter_eq_findSome (locate : Nat → Option FsPath) (t fuel : Nat) :
    (waitIter locate t fuel).1 = (pollTimesIter t fuel).findSome? locate := by
  induction fuel generalizing t with
  | zero => rfl
  | succ n ih =>
    rw [waitIter, pollTimesIter]
    rcases hl : locate t with _ | p
    · simpa [List.findSome?, hl] using ih (t + 100)
    · simp [List.findSome?, hl]

theorem wait_for_qrcode_eq_findSome (locate : Nat → Option FsPath)
    (endt t : Nat) :
    (wait_for_qrcode locate endt t).1 = (pollTimes endt t).findSome? locate :=
  waitIter_eq_findSome locate t _

/-! Helper lemmas about the orchestrator. -/

theorem make_output_path_ok (found : FsPath) (sfx folder : String) (mkf : Bool)
    (h : folder = "" ∨ mkf = false) :
    ∃ tp, make_output_path found sfx folder mkf = .ok tp := by
  rw [make_output_path]
  by_cases hfold : folder = ""
  · rw [if_pos hfold]
    exact ⟨_, rfl⟩
  · rcases h with hfold2 | hmk
    · exact absurd hfold2 hfold
    · rw [if_neg hfold, hmk]
      exact ⟨_, by rw [if_neg (by simp)]⟩

theorem spe_run (app : App) (fs : FS) (o : Oracle) (tmp : String) (found : FsPath)
    (happ : app.gallery_enabled = true)
    (hdisc : discover_filename app = some found)
    (hex : pathExists fs found = true)
    (hfold : app.gallery_output_folder = "")
    (hth : o.thumbFails = false) :
    state_processing_exit app fs o tmp =
      .ok (afterThumb app fs o tmp found
        (childPath (parentOf found) (thumbName found app.gallery_suffix))) := by
  rw [state_processing_exit]
  simp [happ, hdisc, hex, hth, make_output_path, hfold]

theorem write_manifest_atomic_ok_lookup (fs : FS) (tmp : String)
    (mpath : FsPath) (data : List JVal) :
    fsLookup (write_manifest_atomic fs ⟨false, false, false⟩ tmp mpath data).1
      mpath = some (.json (.arr data)) := by
  simp [write_manifest_atomic, fsLookup_fsSet]

theorem qrAttrProbe_unset (app : App) (fs : FS)
    (h : qrAttrsUnset app = true) : qrAttrProbe app fs = none := by
  rw [qrAttrsUnset] at h
  simp only [Bool.and_eq_true, Option.isNone_iff_eq_none] at h
  obtain ⟨⟨⟨⟨h1, h2⟩, h3⟩, h4⟩, h5⟩ := h
  simp [qrAttrProbe, h1, h2, h3, h4, h5, List.findSome?]

theorem locate_qrcode_none (found : FsPath) (app : App) (fs : FS)
    (hsave : app.qrcode_save = false)
    (hattrs : qrAttrsUnset app = true) :
    locate_qrcode_for_image found app fs = none := by
  rw [locate_qrcode_for_image, qrAttrProbe_unset app fs hattrs, hsave]
  simp

/-! Transparency of `publishAttrs` for the fields it does not touch. -/

theorem publishAttrs_gallery_update_manifest (app : App) (f t : FsPath) :
    (publishAttrs app f t).gallery_update_manifest =
      app.gallery_update_manifest := rfl

theorem publishAttrs_gallery_manifest_name (app : App) (f t : FsPath) :
    (publishAttrs app f t).gallery_manifest_name =
      app.gallery_manifest_name := rfl

theorem publishAttrs_gallery_template (app : App) (f t : FsPath) :
    (publishAttrs app f t).gallery_template = app.gallery_template := rfl

theorem publishAttrs_qrcode_save (app : App) (f t : FsPath) :
    (publishAttrs app f t).qrcode_save = app.qrcode_save := rfl

theorem publishAttrs_qrAttrsUnset (app : App) (f t : FsPath) :
    qrAttrsUnset (publishAttrs app f t) = qrAttrsUnset app := rfl

theorem publishAttrs_mkEventEntry (app : App) (f t a b : FsPath)
    (c : Option FsPath) :
    mkEventEntry (publishAttrs app f t) a b c = mkEventEntry app a b c := rfl

/-! Behaviour of the manifest block. -/

theorem manifestStage_error (app : App) (fs : FS) (w : WriteFlags)
    (tmp : String) (found thumb_path : FsPath) (qrp : Option FsPath)
    (hupd2 : app.gallery_update_manifest = true)
    (hbad2 : allObjs (load_manifest fs
        (childPath (parentOf found) app.gallery_manifest_name)) = false) :
    manifestStage app fs w tmp found thumb_path qrp = fs := by
  simp only [manifestStage, hupd2, Bool.not_true]
  rw [if_neg (by simp)]
  rw [syncList, dedupFilter_error _ _ _ hbad2]

theorem manifestStage_ok (app : App) (fs : FS) (tmp : String)
    (found thumb_path : FsPath) (qrp : Option FsPath)
    (hupd2 : app.gallery_update_manifest = true)
    (hobjs2 : allObjs (load_manifest fs
        (childPath (parentOf found) app.gallery_manifest_name)) = true) :
    manifestStage app fs ⟨false, false, false⟩ tmp found thumb_path qrp =
      (write_manifest_atomic fs ⟨false, false, false⟩ tmp
        (childPath (parentOf found) app.gallery_manifest_name)
        ((mkEventEntry app found thumb_path qrp).1 ::
          (load_manifest fs
            (childPath (parentOf found) app.gallery_manifest_name)).filter
            (fun e => keepB e (lastName found) (eventFullUrl app found)))).1 := by
  simp only [manifestStage, hupd2, Bool.not_true]
  rw [if_neg (by simp)]
  rw [syncList, dedupFilter_eq_filter _ _ _ hobjs2]
  rfl

theorem manifestStage_success_load (app : App) (fs : FS) (tmp : String)
    (found thumb_path : FsPath) (qrp : Option FsPath)
    (hupd2 : app.gallery_update_manifest = true)
    (hobjs2 : allObjs (load_manifest fs
        (childPath (parentOf found) app.gallery_manifest_name)) = true) :
    load_manifest
        (manifestStage app fs ⟨false, false, false⟩ tmp found thumb_path qrp)
        (childPath (parentOf found) app.gallery_manifest_name) =
      (mkEventEntry app found thumb_path qrp).1 ::
        (load_manifest fs
          (childPath (parentOf found) app.gallery_manifest_name)).filter
          (fun e => keepB e (lastName found) (eventFullUrl app found)) := by
  rw [manifestStage_ok app fs tmp found thumb_path qrp hupd2 hobjs2]
  exact load_manifest_eq_of_lookup _ _ _ (write_manifest_atomic_ok_lookup _ _ _ _)

theorem galleryStage_none (app : App) (fs : FS) (rf wf : Bool) (found : FsPath)
    (h : app.gallery_template = none) :
    galleryStage app fs rf wf found = fs := by
  rw [galleryStage, h]

/-- Absent any exception, the callback always completes: every branch of
`state_processing_exit` other than a failing `mkdir` inside
`_make_output_path` ends in a caught state. -/
theorem spe_total (app : App) (fs : FS) (o : Oracle) (tmp : String)
    (h : app.gallery_output_folder = "" ∨ o.mkdirFails = false) :
    ∃ r, state_processing_exit app fs o tmp = .ok r := by
  rw [state_processing_exit]
  cases happ : app.gallery_enabled with
  | false => exact ⟨(app, fs), by simp⟩
  | true =>
    rcases hd : discover_filename app with _ | found
    · exact ⟨(app, fs), by simp⟩
    · obtain ⟨tp, htp⟩ := make_output_path_ok found app.gallery_suffix
        app.gallery_output_folder o.mkdirFails h
      cases hex : pathExists fs found with
      | false => exact ⟨(app, fs), by simp [hex]⟩
      | true =>
        cases hthb : o.thumbFails with
        | true => exact ⟨(app, fs), by simp [hex, htp, hthb]⟩
        | false =>
          exact ⟨afterThumb app fs o tmp found tp, by simp [hex, htp, hthb]⟩

/-- C3 is false as stated: with a thumbnail output subfolder configured and
`outdir.mkdir` failing, the exception raised inside `_make_output_path`
(src line 144) is reached from src line 287 outside every `try` block of
`state_processing_exit` and propagates to the host. -/
theorem C3_counterexample :
    state_processing_exit appX fs0 oracleX "tmp42" = .error () := rfl

/-- C3 amended: no exception propagates out of the per-capture callback
except through the one uncovered spot — directory creation inside
`_make_output_path`: whenever no thumbnail output subfolder is configured, or
the directory creation succeeds, every other failure path is caught and the
callback returns normally. -/
theorem C3_no_exception_amended (app : App) (fs : FS) (o : Oracle)
    (tmp : String) (h : app.gallery_output_folder = "" ∨ o.mkdirFails = false) :
    exOk (state_processing_exit app fs o tmp) = true := by
  obtain ⟨r, hr⟩ := spe_total app fs o tmp h
  rw [hr]
  rfl

/-- Witness for C3 amended: a fault-free run over the baseline fixtures. -/
theorem C3_no_exception_amended_witness :
    (app0.gallery_output_folder = "" ∨ oracle0.mkdirFails = false) ∧
    exOk (state_processing_exit app0 fs0 oracle0 "tmp42") = true :=
  ⟨Or.inl rfl, C3_no_exception_amended app0 fs0 oracle0 "tmp42" (Or.inl rfl)⟩

/-- C4: whenever thumbnail generation itself fails (the stage being reached,
which requires that `_make_output_path` did not raise first), the callback
returns with the shared-context attributes unpublished and the file system —
in particular the manifest file and the gallery output file — untouched:
the result is exactly the input pair. -/
theorem C4_thumb_failure_aborts (app : App) (fs : FS) (o : Oracle)
    (tmp : String) (ht : o.thumbFails = true)
    (h : app.gallery_output_folder = "" ∨ o.mkdirFails = false) :
    state_processing_exit app fs o tmp = .ok (app, fs) := by
  rw [state_processing_exit]
  cases happ : app.gallery_enabled with
  | false => simp
  | true =>
    rcases hd : discover_filename app with _ | found
    · simp
    · obtain ⟨tp, htp⟩ := make_output_path_ok found app.gallery_suffix
        app.gallery_output_folder o.mkdirFails h
      cases hex : pathExists fs found with
      | false => simp [hex]
      | true => simp [hex, htp, ht]

/-- Witness for C4: a failing thumbnail stage over the baseline fixtures. -/
theorem C4_thumb_failure_aborts_witness :
    oracleT.thumbFails = true ∧
    (app0.gallery_output_folder = "" ∨ oracleT.mkdirFails = false) ∧
    state_processing_exit app0 fs0 oracleT "tmp42" = .ok (app0, fs0) :=
  ⟨rfl, Or.inl rfl,
    C4_thumb_failure_aborts app0 fs0 oracleT "tmp42" rfl (Or.inl rfl)⟩

/-- C10: when the manifest on disk parses as a JSON array containing a
non-object element, the dedup comprehension raises (`AttributeError` on
`.get`), the exception is caught by the manifest block's `try/except`, no new
entry is written, and the manifest file is left byte-for-byte unchanged —
while the callback still completes normally. -/
theorem C10_non_object_entry_aborts (app : App) (fs : FS) (o : Oracle)
    (tmp : String) (found : FsPath) (xs : List JVal)
    (happ : app.gallery_enabled = true)
    (hdisc : discover_filename app = some found)
    (hex : pathExists fs found = true)
    (hfold : app.gallery_output_folder = "")
    (hth : o.thumbFails = false)
    (hupd : app.gallery_update_manifest = true)
    (hman : fsLookup fs (childPath (parentOf found) app.gallery_manifest_name) =
      some (.json (.arr xs)))
    (hbad : allObjs xs = false)
    (hthb : thumbName found app.gallery_suffix ≠ app.gallery_manifest_name)
    (htpl : app.gallery_template = none) :
    ∃ app2 fs2, state_processing_exit app fs o tmp = .ok (app2, fs2)
      ∧ fsLookup fs2 (childPath (parentOf found) app.gallery_manifest_name) =
          some (.json (.arr xs)) := by
  have htpne : ¬(childPath (parentOf found) app.gallery_manifest_name =
      childPath (parentOf found) (thumbName found app.gallery_suffix)) := by
    intro hh
    exact hthb (((childPath_inj _ _ _).mp hh).symm)
  have hlk1 : fsLookup
      (fsSet fs (childPath (parentOf found) (thumbName found app.gallery_suffix))
        .image)
      (childPath (parentOf found) app.gallery_manifest_name) =
      some (.json (.arr xs)) := by
    rw [fsLookup_fsSet, if_neg htpne]
    exact hman
  rw [spe_run app fs o tmp found happ hdisc hex hfold hth]
  refine ⟨_, _, rfl, ?_⟩
  show fsLookup
    (galleryStage
      (publishAttrs app found
        (childPath (parentOf found) (thumbName found app.gallery_suffix)))
      (manifestStage
        (publishAttrs app found
          (childPath (parentOf found) (thumbName found app.gallery_suffix)))
        (fsSet fs (childPath (parentOf found) (thumbName found app.gallery_suffix))
          .image)
        o.manifestWrite tmp found
        (childPath (parentOf found) (thumbName found app.gallery_suffix))
        ((wait_for_qrcode
          (fun _ => locate_qrcode_for_image found
            (publishAttrs app found
              (childPath (parentOf found) (thumbName found app.gallery_suffix)))
            (fsSet fs
              (childPath (parentOf found) (thumbName found app.gallery_suffix))
              .image))
          (publishAttrs app found
            (childPath (parentOf found) (thumbName found app.gallery_suffix))).qrcode_wait_ms
          0).1))
      o.tplReadFails o.tplWriteFails found)
    (childPath (parentOf found) app.gallery_manifest_name) =
    some (.json (.arr xs))
  rw [manifestStage_error _ _ _ _ _ _ _
    (by rw [publishAttrs_gallery_update_manifest]; exact hupd)
    (by rw [publishAttrs_gallery_manifest_name,
      load_manifest_eq_of_lookup _ _ _ hlk1]; exact hbad)]
  rw [galleryStage_none _ _ _ _ _
    (by rw [publishAttrs_gallery_template]; exact htpl)]
  exact hlk1

/-- Witness for C10: a manifest holding the stray string `"oops"` survives
the capture event unchanged. -/
theorem C10_non_object_entry_aborts_witness :
    app0.gallery_enabled = true ∧
    discover_filename app0 = some ["pics", "photo1.jpg"] ∧
    pathExists fsBad ["pics", "photo1.jpg"] = true ∧
    app0.gallery_output_folder = "" ∧
    oracle0.thumbFails = false ∧
    app0.gallery_update_manifest = true ∧
    fsLookup fsBad
      (childPath (parentOf ["pics", "photo1.jpg"]) app0.gallery_manifest_name) =
      some (.json (.arr [.str "oops"])) ∧
    allObjs [.str "oops"] = false ∧
    thumbName ["pics", "photo1.jpg"] app0.gallery_suffix ≠
      app0.gallery_manifest_name ∧
    app0.gallery_template = none ∧
    (∃ app2 fs2, state_processing_exit app0 fsBad oracle0 "tmp42" = .ok (app2, fs2)
      ∧ fsLookup fs2
          (childPath (parentOf ["pics", "photo1.jpg"]) app0.gallery_manifest_name) =
          some (.json (.arr [.str "oops"]))) :=
  ⟨rfl, rfl, rfl, rfl, rfl, rfl, rfl, rfl, by decide, rfl,
    C10_non_object_entry_aborts app0 fsBad oracle0 "tmp42" ["pics", "photo1.jpg"]
      [.str "oops"] rfl rfl rfl rfl rfl rfl rfl rfl (by decide) rfl⟩

/-- C6: `_load_manifest` returns the parsed list exactly when the file exists
and its bytes parse as a JSON array, and returns the empty list — without
raising, the function being total — when the file is absent, unreadable, not
valid JSON, or parses to a non-array value. -/
theorem C6_load_manifest_total (fs : FS) (p : FsPath) :
    load_manifest fs p =
      match fsLookup fs p with
      | some (.json (.arr xs)) => xs
      | _ => [] := by
  rcases hc : fsLookup fs p with _ | c
  · simp [load_manifest, hc]
  · cases c with
    | json v => cases v <;> simp [load_manifest, hc, parseJson]
    | junk => simp [load_manifest, hc, parseJson]
    | text s => simp [load_manifest, hc, parseJson]
    | image => simp [load_manifest, hc, parseJson]

/-- C2: `_write_manifest_atomic` works on a fresh temp file inside the
destination's own directory and only the final rename touches the
destination: it reports success exactly when no step failed, on success the
destination holds the full serialized list, and on any failure the
destination's previous content is unchanged.  The function is total — the
surrounding `try/except` turns every failure into `false` instead of an
exception. -/
theorem C2_write_manifest_atomic (fs : FS) (w : WriteFlags) (tmp : String)
    (mpath : FsPath) (data : List JVal)
    (hfresh : childPath (parentOf mpath) tmp ≠ mpath) :
    ((write_manifest_atomic fs w tmp mpath data).2 = true ↔
        w.mkdirFails = false ∧ w.dumpFails = false ∧ w.renameFails = false)
    ∧ ((write_manifest_atomic fs w tmp mpath data).2 = true →
        fsLookup (write_manifest_atomic fs w tmp mpath data).1 mpath =
          some (.json (.arr data)))
    ∧ ((write_manifest_atomic fs w tmp mpath data).2 = false →
        fsLookup (write_manifest_atomic fs w tmp mpath data).1 mpath =
          fsLookup fs mpath)
    ∧ parentOf (childPath (parentOf mpath) tmp) = parentOf mpath := by
  obtain ⟨m, d, r⟩ := w
  have hne : ¬mpath = childPath (parentOf mpath) tmp := fun hh => hfresh hh.symm
  cases m <;> cases d <;> cases r <;>
    simp [write_manifest_atomic, fsLookup_fsSet, fsLookup_fsErase, hne,
      parentOf_childPath]

/-- Witness for C2 at a concrete manifest path and fresh temp name. -/
theorem C2_write_manifest_atomic_witness :
    childPath (parentOf ["pics", "thumbs.json"]) "tmpq1w2" ≠ ["pics", "thumbs.json"] ∧
    (((write_manifest_atomic [] ⟨false, false, false⟩ "tmpq1w2"
          ["pics", "thumbs.json"] []).2 = true ↔
        (false : Bool) = false ∧ (false : Bool) = false ∧ (false : Bool) = false)
      ∧ ((write_manifest_atomic [] ⟨false, false, false⟩ "tmpq1w2"
            ["pics", "thumbs.json"] []).2 = true →
          fsLookup (write_manifest_atomic [] ⟨false, false, false⟩ "tmpq1w2"
              ["pics", "thumbs.json"] []).1 ["pics", "thumbs.json"] =
            some (.json (.arr [])))
      ∧ ((write_manifest_atomic [] ⟨false, false, false⟩ "tmpq1w2"
            ["pics", "thumbs.json"] []).2 = false →
          fsLookup (write_manifest_atomic [] ⟨false, false, false⟩ "tmpq1w2"
              ["pics", "thumbs.json"] []).1 ["pics", "thumbs.json"] =
            fsLookup [] ["pics", "thumbs.json"])
      ∧ parentOf (childPath (parentOf ["pics", "thumbs.json"]) "tmpq1w2") =
          parentOf ["pics", "thumbs.json"]) :=
  ⟨by decide,
    C2_write_manifest_atomic [] ⟨false, false, false⟩ "tmpq1w2"
      ["pics", "thumbs.json"] [] (by decide)⟩

/-- C5: for a prior manifest made of JSON objects (the manifest data model)
and any new entry, dedup-and-prepend succeeds, puts the new entry at index 0,
and the tail is exactly the prior list filtered to the elements kept by the
dedup condition (`filename` differs from the new entry's `filename` and
`full` differs from its `full`), each kept unchanged; the tail being a
sublist of the prior list captures that the survivors appear in their
original relative order. -/
theorem C5_sync_frame (prior : List JVal) (entry : JVal) (fr fu : String)
    (h : allObjs prior = true) :
    syncList prior entry fr fu =
      .ok (entry :: prior.filter (fun e => keepB e fr fu))
    ∧ (prior.filter (fun e => keepB e fr fu)).Sublist prior
    ∧ (∀ e ∈ prior,
        (e ∈ prior.filter (fun e => keepB e fr fu) ↔ keepB e fr fu = true)) := by
  refine ⟨?_, List.filter_sublist prior, ?_⟩
  · rw [syncList, dedupFilter_eq_filter prior fr fu h]
  · intro e he
    constructor
    · intro hmem
      exact (List.mem_filter.mp hmem).2
    · intro hk
      exact List.mem_filter.mpr ⟨he, hk⟩

/-- Witness for C5: syncing `photo1.jpg` against a prior manifest holding an
unrelated `photo2.jpg` entry. -/
theorem C5_sync_frame_witness :
    allObjs [obj2] = true ∧
    (syncList [obj2] entry1 "photo1.jpg" "photo1.jpg" =
        .ok (entry1 :: [obj2].filter (fun e => keepB e "photo1.jpg" "photo1.jpg"))
      ∧ ([obj2].filter (fun e => keepB e "photo1.jpg" "photo1.jpg")).Sublist [obj2]
      ∧ (∀ e ∈ [obj2],
          (e ∈ [obj2].filter (fun e => keepB e "photo1.jpg" "photo1.jpg") ↔
            keepB e "photo1.jpg" "photo1.jpg" = true))) :=
  ⟨rfl, C5_sync_frame [obj2] entry1 "photo1.jpg" "photo1.jpg" rfl⟩

/-- C1's closing clause is false as stated: a single sync over a prior
manifest that already holds two entries for the unrelated filename `a.jpg`
produces a manifest that still holds both — sync preserves the
at-most-one-per-filename invariant but does not establish it. -/
theorem C1_counterexample :
    countFname
      (load_manifest
        (manifestStage app0
          [(["pics", "photo1.jpg"], .image),
            (["pics", "thumbs.json"], .json (.arr [objDupA, objDupA]))]
          ⟨false, false, false⟩ "tmpq" ["pics", "photo1.jpg"]
          ["pics", "photo1_thumb.jpg"] none)
        ["pics", "thumbs.json"]) "a.jpg" = 2 := rfl

/-- C1 amended: syncing the same picture twice (with possibly different QR
outcomes) yields a manifest whose entry at index 0 is the entry of the latest
sync and which holds exactly one entry whose `filename` is the picture's base
name; and one sync step preserves — though it does not establish — the
at-most-one-entry-per-`filename` invariant. -/
theorem C1_sync_idempotent_amended (app : App) (fs : FS) (tmp : String)
    (found thumb : FsPath) (qr1 qr2 : Option FsPath)
    (hupd : app.gallery_update_manifest = true)
    (hobjs : allObjs (load_manifest fs
        (childPath (parentOf found) app.gallery_manifest_name)) = true) :
    (load_manifest
        (manifestStage app
          (manifestStage app fs ⟨false, false, false⟩ tmp found thumb qr1)
          ⟨false, false, false⟩ tmp found thumb qr2)
        (childPath (parentOf found) app.gallery_manifest_name)).head? =
      some (mkEventEntry app found thumb qr2).1
    ∧ countFname
        (load_manifest
          (manifestStage app
            (manifestStage app fs ⟨false, false, false⟩ tmp found thumb qr1)
            ⟨false, false, false⟩ tmp found thumb qr2)
          (childPath (parentOf found) app.gallery_manifest_name))
        (lastName found) = 1
    ∧ hasFname (mkEventEntry app found thumb qr2).1 (lastName found) = true
    ∧ (∀ g : String,
        countFname (load_manifest fs
            (childPath (parentOf found) app.gallery_manifest_name)) g ≤ 1 →
        countFname
          (load_manifest
            (manifestStage app fs ⟨false, false, false⟩ tmp found thumb qr1)
            (childPath (parentOf found) app.gallery_manifest_name)) g ≤ 1) := by
  have h1 := manifestStage_success_load app fs tmp found thumb qr1 hupd hobjs
  have hobjs2 : allObjs (load_manifest
      (manifestStage app fs ⟨false, false, false⟩ tmp found thumb qr1)
      (childPath (parentOf found) app.gallery_manifest_name)) = true := by
    rw [h1, allObjs, List.all_cons]
    exact (Bool.and_eq_true _ _).mpr ⟨rfl, allObjs_filter _ _ hobjs⟩
  have h2 := manifestStage_success_load app
    (manifestStage app fs ⟨false, false, false⟩ tmp found thumb qr1)
    tmp found thumb qr2 hupd hobjs2
  rw [h1] at h2
  have hfil : List.filter (fun e => keepB e (lastName found) (eventFullUrl app found))
      ((mkEventEntry app found thumb qr1).1 ::
        List.filter (fun e => keepB e (lastName found) (eventFullUrl app found))
          (load_manifest fs (childPath (parentOf found) app.gallery_manifest_name))) =
      List.filter (fun e => keepB e (lastName found) (eventFullUrl app found))
        (load_manifest fs (childPath (parentOf found) app.gallery_manifest_name)) := by
    have hk1 : keepB (mkEventEntry app found thumb qr1).1 (lastName found)
        (eventFullUrl app found) = false := keepB_entry_self _ _ _ _
    rw [List.filter_cons, hk1]
    simp [filter_keepB_idem]
  rw [hfil] at h2
  have hfn : hasFname (mkEventEntry app found thumb qr2).1 (lastName found) =
      true := by
    have hh := hasFname_entry (eventThumbUrl app found thumb)
      (eventFullUrl app found) (lastName found) (lastName found)
      (eventQrUrl app found qr2)
    simpa using hh
  refine ⟨?_, ?_, hfn, ?_⟩
  · rw [h2]
    rfl
  · rw [h2]
    have hc : countFname ((mkEventEntry app found thumb qr2).1 ::
        (load_manifest fs
          (childPath (parentOf found) app.gallery_manifest_name)).filter
          (fun e => keepB e (lastName found) (eventFullUrl app found)))
        (lastName found) =
        countFname ((load_manifest fs
          (childPath (parentOf found) app.gallery_manifest_name)).filter
          (fun e => keepB e (lastName found) (eventFullUrl app found)))
          (lastName found) +
          if hasFname (mkEventEntry app found thumb qr2).1 (lastName found)
          then 1 else 0 := by
      simp [countFname, List.countP_cons]
    rw [hc, countFname_filter_keep, hfn]
    simp
  · intro g hg
    rw [h1]
    have hc : countFname ((mkEventEntry app found thumb qr1).1 ::
        (load_manifest fs
          (childPath (parentOf found) app.gallery_manifest_name)).filter
          (fun e => keepB e (lastName found) (eventFullUrl app found))) g =
        countFname ((load_manifest fs
          (childPath (parentOf found) app.gallery_manifest_name)).filter
          (fun e => keepB e (lastName found) (eventFullUrl app found))) g +
          if hasFname (mkEventEntry app found thumb qr1).1 g then 1 else 0 := by
      simp [countFname, List.countP_cons]
    rw [hc]
    have hfn1 : hasFname (mkEventEntry app found thumb qr1).1 g =
        decide (lastName found = g) := hasFname_entry _ _ _ _ _
    rw [hfn1]
    by_cases hfg : lastName found = g
    · subst hfg
      rw [countFname_filter_keep]
      simp
    · have hd : decide (lastName found = g) = false := by
        simp [hfg]
      rw [hd]
      simp only [Bool.false_eq_true, if_false, Nat.add_zero]
      exact le_trans (countFname_filter_le _ _ _) hg

/-- Witness for C1 amended over a prior manifest holding `photo2.jpg`. -/
theorem C1_sync_idempotent_amended_witness :
    app0.gallery_update_manifest = true ∧
    allObjs (load_manifest fsPrior
      (childPath (parentOf ["pics", "photo1.jpg"]) app0.gallery_manifest_name)) =
      true ∧
    ((load_manifest
        (manifestStage app0
          (manifestStage app0 fsPrior ⟨false, false, false⟩ "tmpq"
            ["pics", "photo1.jpg"] ["pics", "photo1_thumb.jpg"] none)
          ⟨false, false, false⟩ "tmpq" ["pics", "photo1.jpg"]
          ["pics", "photo1_thumb.jpg"] none)
        (childPath (parentOf ["pics", "photo1.jpg"]) app0.gallery_manifest_name)).head? =
      some (mkEventEntry app0 ["pics", "photo1.jpg"]
        ["pics", "photo1_thumb.jpg"] none).1
    ∧ countFname
        (load_manifest
          (manifestStage app0
            (manifestStage app0 fsPrior ⟨false, false, false⟩ "tmpq"
              ["pics", "photo1.jpg"] ["pics", "photo1_thumb.jpg"] none)
            ⟨false, false, false⟩ "tmpq" ["pics", "photo1.jpg"]
            ["pics", "photo1_thumb.jpg"] none)
          (childPath (parentOf ["pics", "photo1.jpg"]) app0.gallery_manifest_name))
        (lastName ["pics", "photo1.jpg"]) = 1
    ∧ hasFname (mkEventEntry app0 ["pics", "photo1.jpg"]
        ["pics", "photo1_thumb.jpg"] none).1 (lastName ["pics", "photo1.jpg"]) =
        true
    ∧ (∀ g : String,
        countFname (load_manifest fsPrior
            (childPath (parentOf ["pics", "photo1.jpg"])
              app0.gallery_manifest_name)) g ≤ 1 →
        countFname
          (load_manifest
            (manifestStage app0 fsPrior ⟨false, false, false⟩ "tmpq"
              ["pics", "photo1.jpg"] ["pics", "photo1_thumb.jpg"] none)
            (childPath (parentOf ["pics", "photo1.jpg"])
              app0.gallery_manifest_name)) g ≤ 1)) :=
  ⟨rfl, rfl,
    C1_sync_idempotent_amended app0 fsPrior "tmpq" ["pics", "photo1.jpg"]
      ["pics", "photo1_thumb.jpg"] none none rfl rfl⟩

/-- C7 is false as stated: even with `qrcode_save` resolved to false from an
absent QRCODE section, the attribute probe of `_locate_qrcode_for_image` runs
first and unconditionally, so a `qrcode_file` shared-context attribute
pointing at an existing file still puts a `qrcode` field into the entry
written to the manifest. -/
theorem C7_counterexample :
    appQ.qrcode_save = false ∧
    ((load_manifest (resultFS (state_processing_exit appQ fsQ oracle0 "tmp42"))
        ["pics", "thumbs.json"]).head?.map (fun e => hasKey e "qrcode")) =
      some true :=
  ⟨rfl, rfl⟩

/-- C7 amended: with the QRCODE section absent, `qrcode_save` resolves to
false and the convention-based QR search is skipped, so — provided no
QR-related shared-context attribute has been published by another plugin —
the entry written to the manifest has no `qrcode` field. -/
theorem C7_no_qrcode_field_amended (app : App) (fs : FS) (o : Oracle)
    (tmp : String) (found : FsPath)
    (happ : app.gallery_enabled = true)
    (hdisc : discover_filename app = some found)
    (hex : pathExists fs found = true)
    (hfold : app.gallery_output_folder = "")
    (hth : o.thumbFails = false)
    (hupd : app.gallery_update_manifest = true)
    (hw : o.manifestWrite = ⟨false, false, false⟩)
    (hthb : thumbName found app.gallery_suffix ≠ app.gallery_manifest_name)
    (hobjs : allObjs (load_manifest fs
        (childPath (parentOf found) app.gallery_manifest_name)) = true)
    (hsave : app.qrcode_save = false)
    (hattrs : qrAttrsUnset app = true)
    (htpl : app.gallery_template = none) :
    resolve_qrcode_save none = false ∧
    (∃ app2 fs2 rest,
      state_processing_exit app fs o tmp = .ok (app2, fs2)
      ∧ load_manifest fs2 (childPath (parentOf found) app.gallery_manifest_name) =
          (mkEventEntry app found
            (childPath (parentOf found) (thumbName found app.gallery_suffix))
            none).1 :: rest
      ∧ hasKey (mkEventEntry app found
          (childPath (parentOf found) (thumbName found app.gallery_suffix))
          none).1 "qrcode" = false) := by
  refine ⟨rfl, ?_⟩
  have htpne : ¬(childPath (parentOf found) app.gallery_manifest_name =
      childPath (parentOf found) (thumbName found app.gallery_suffix)) := by
    intro hh
    exact hthb (((childPath_inj _ _ _).mp hh).symm)
  have hloadeq : load_manifest
      (fsSet fs (childPath (parentOf found) (thumbName found app.gallery_suffix))
        .image)
      (childPath (parentOf found) app.gallery_manifest_name) =
      load_manifest fs (childPath (parentOf found) app.gallery_manifest_name) :=
    load_manifest_fsSet_ne fs _ _ .image htpne
  have hloc : (fun _ : Nat => locate_qrcode_for_image found
      (publishAttrs app found
        (childPath (parentOf found) (thumbName found app.gallery_suffix)))
      (fsSet fs (childPath (parentOf found) (thumbName found app.gallery_suffix))
        .image)) = (fun _ => (none : Option FsPath)) := by
    funext _
    exact locate_qrcode_none _ _ _
      (by rw [publishAttrs_qrcode_save]; exact hsave)
      (by rw [publishAttrs_qrAttrsUnset]; exact hattrs)
  have hqrp : (wait_for_qrcode
      (fun _ => locate_qrcode_for_image found
        (publishAttrs app found
          (childPath (parentOf found) (thumbName found app.gallery_suffix)))
        (fsSet fs
          (childPath (parentOf found) (thumbName found app.gallery_suffix))
          .image))
      (publishAttrs app found
        (childPath (parentOf found) (thumbName found app.gallery_suffix))).qrcode_wait_ms
      0).1 = none := by
    rw [hloc]
    exact wait_for_qrcode_const_none _ _
  have hobjs1 : allObjs (load_manifest
      (fsSet fs (childPath (parentOf found) (thumbName found app.gallery_suffix))
        .image)
      (childPath (parentOf found)
        (publishAttrs app found
          (childPath (parentOf found) (thumbName found app.gallery_suffix))).gallery_manifest_name)) =
      true := by
    rw [publishAttrs_gallery_manifest_name, hloadeq]
    exact hobjs
  have hkey2 : load_manifest
      (manifestStage
        (publishAttrs app found
          (childPath (parentOf found) (thumbName found app.gallery_suffix)))
        (fsSet fs (childPath (parentOf found) (thumbName found app.gallery_suffix))
          .image)
        ⟨false, false, false⟩ tmp found
        (childPath (parentOf found) (thumbName found app.gallery_suffix)) none)
      (childPath (parentOf found) app.gallery_manifest_name) =
      (mkEventEntry app found
        (childPath (parentOf found) (thumbName found app.gallery_suffix)) none).1 ::
        (load_manifest
          (fsSet fs (childPath (parentOf found) (thumbName found app.gallery_suffix))
            .image)
          (childPath (parentOf found) app.gallery_manifest_name)).filter
          (fun e => keepB e (lastName found) (eventFullUrl app found)) :=
    manifestStage_success_load
      (publishAttrs app found
        (childPath (parentOf found) (thumbName found app.gallery_suffix)))
      (fsSet fs (childPath (parentOf found) (thumbName found app.gallery_suffix))
        .image)
      tmp found (childPath (parentOf found) (thumbName found app.gallery_suffix))
      none (by rw [publishAttrs_gallery_update_manifest]; exact hupd) hobjs1
  rw [hloadeq] at hkey2
  rw [spe_run app fs o tmp found happ hdisc hex hfold hth]
  refine ⟨_, _,
    (load_manifest fs (childPath (parentOf found) app.gallery_manifest_name)).filter
      (fun e => keepB e (lastName found) (eventFullUrl app found)),
    rfl, ?_, ?_⟩
  · show load_manifest
      (galleryStage
        (publishAttrs app found
          (childPath (parentOf found) (thumbName found app.gallery_suffix)))
        (manifestStage
          (publishAttrs app found
            (childPath (parentOf found) (thumbName found app.gallery_suffix)))
          (fsSet fs
            (childPath (parentOf found) (thumbName found app.gallery_suffix))
            .image)
          o.manifestWrite tmp found
          (childPath (parentOf found) (thumbName found app.gallery_suffix))
          ((wait_for_qrcode
            (fun _ => locate_qrcode_for_image found
              (publishAttrs app found
                (childPath (parentOf found) (thumbName found app.gallery_suffix)))
              (fsSet fs
                (childPath (parentOf found) (thumbName found app.gallery_suffix))
                .image))
            (publishAttrs app found
              (childPath (parentOf found) (thumbName found app.gallery_suffix))).qrcode_wait_ms
            0).1))
        o.tplReadFails o.tplWriteFails found)
      (childPath (parentOf found) app.gallery_manifest_name) =
      (mkEventEntry app found
        (childPath (parentOf found) (thumbName found app.gallery_suffix)) none).1 ::
        (load_manifest fs (childPath (parentOf found) app.gallery_manifest_name)).filter
          (fun e => keepB e (lastName found) (eventFullUrl app found))
    rw [hqrp, hw]
    rw [galleryStage_none _ _ _ _ _
      (by rw [publishAttrs_gallery_template]; exact htpl)]
    exact hkey2
  · exact hasKey_entry_qrcode_none _ _ _

/-- Witness for C7 amended: the baseline fixtures (QR disabled, no QR
attributes set) produce a manifest head entry without a `qrcode` field. -/
theorem C7_no_qrcode_field_amended_witness :
    app0.gallery_enabled = true ∧
    discover_filename app0 = some ["pics", "photo1.jpg"] ∧
    pathExists fs0 ["pics", "photo1.jpg"] = true ∧
    app0.gallery_output_folder = "" ∧
    oracle0.thumbFails = false ∧
    app0.gallery_update_manifest = true ∧
    oracle0.manifestWrite = ⟨false, false, false⟩ ∧
    thumbName ["pics", "photo1.jpg"] app0.gallery_suffix ≠
      app0.gallery_manifest_name ∧
    allObjs (load_manifest fs0
      (childPath (parentOf ["pics", "photo1.jpg"]) app0.gallery_manifest_name)) =
      true ∧
    app0.qrcode_save = false ∧
    qrAttrsUnset app0 = true ∧
    app0.gallery_template = none ∧
    (resolve_qrcode_save none = false ∧
      (∃ app2 fs2 rest,
        state_processing_exit app0 fs0 oracle0 "tmp42" = .ok (app2, fs2)
        ∧ load_manifest fs2
            (childPath (parentOf ["pics", "photo1.jpg"]) app0.gallery_manifest_name) =
            (mkEventEntry app0 ["pics", "photo1.jpg"]
              (childPath (parentOf ["pics", "photo1.jpg"])
                (thumbName ["pics", "photo1.jpg"] app0.gallery_suffix))
              none).1 :: rest
        ∧ hasKey (mkEventEntry app0 ["pics", "photo1.jpg"]
            (childPath (parentOf ["pics", "photo1.jpg"])
              (thumbName ["pics", "photo1.jpg"] app0.gallery_suffix))
            none).1 "qrcode" = false)) :=
  ⟨rfl, rfl, rfl, rfl, rfl, rfl, rfl, by decide, rfl, rfl, rfl, rfl,
    C7_no_qrcode_field_amended app0 fs0 oracle0 "tmp42" ["pics", "photo1.jpg"]
      rfl rfl rfl rfl rfl rfl rfl (by decide) rfl rfl rfl rfl⟩

/-- C9 counterexample: the empty raw string resolves to `true`, not `false`,
because `(raw or 'yes')` first replaces every falsy raw value with the
option's default `'yes'` — yet the empty string is not one of the four
accepted tokens. -/
theorem C9_counterexample :
    resolve_gallery_bool (some "") = true ∧ tokenTrue "" = false := by
  exact ⟨by decide, by decide⟩

/-- C9 amended: a non-empty raw string resolves to true exactly when it is
one of the literal tokens `1`, `true`, `yes`, `on` compared
case-insensitively; the empty string and an absent value fall back to the
gallery options' default `'yes'` and hence resolve to true. -/
theorem C9_gallery_bool_amended (s : String) (h : s ≠ "") :
    (resolve_gallery_bool (some s) = true ↔
      (lowerStr s = "1" ∨ lowerStr s = "true" ∨ lowerStr s = "yes" ∨
        lowerStr s = "on"))
    ∧ resolve_gallery_bool none = true := by
  constructor
  · rw [resolve_gallery_bool, pyOrDefault, if_neg h, tokenTrue]
    simp only [Bool.or_eq_true, decide_eq_true_eq]
    tauto
  · rfl

/-- Witness for C9 amended at the raw string `"TRUE"`. -/
theorem C9_gallery_bool_amended_witness :
    ("TRUE" : String) ≠ "" ∧
    ((resolve_gallery_bool (some "TRUE") = true ↔
        (lowerStr "TRUE" = "1" ∨ lowerStr "TRUE" = "true" ∨
          lowerStr "TRUE" = "yes" ∨ lowerStr "TRUE" = "on"))
      ∧ resolve_gallery_bool none = true) :=
  ⟨by decide, C9_gallery_bool_amended "TRUE" (by decide)⟩

/-- C8 counterexample: with the non-negative timeout `0`, the loop condition
`time.time() < end` is false at once, so zero locate attempts are made and
absent is returned — even against a locator that would succeed at every
instant. -/
theorem C8_counterexample :
    wait_for_qrcode (fun _ => some ["pics", "photo1_qrcode.png"]) 7 7 =
      (none, 0) := rfl

/-- C8 amended: the wait loop always terminates and returns exactly the first
result of polling the locator at 0.1-second intervals over the timeout
window; when the timeout is positive at least one locate attempt is made
before absent can be returned (with timeout zero, none is). -/
theorem C8_wait_amended (locate : Nat → Option FsPath) (now timeout : Nat)
    (h : 0 < timeout) :
    1 ≤ (wait_for_qrcode locate (now + timeout) now).2
    ∧ (wait_for_qrcode locate (now + timeout) now).1 =
        (pollTimes (now + timeout) now).findSome? locate := by
  refine ⟨?_, wait_for_qrcode_eq_findSome locate (now + timeout) now⟩
  rw [wait_for_qrcode]
  have h2 : now + timeout - now + 99 = timeout + 99 := by omega
  rw [h2]
  have h3 : 1 ≤ (timeout + 99) / 100 := by
    rw [Nat.le_div_iff_mul_le (by norm_num : 0 < 100)]
    omega
  obtain ⟨f, hf⟩ : ∃ f, (timeout + 99) / 100 = f + 1 :=
    ⟨(timeout + 99) / 100 - 1, by omega⟩
  rw [hf, waitIter]
  rcases locate now with _ | p
  · simp
  · simp

/-- Witness for C8 amended at timeout 100 ms and an always-failing locator. -/
theorem C8_wait_amended_witness :
    0 < 100 ∧
    (1 ≤ (wait_for_qrcode (fun _ => none) (0 + 100) 0).2
      ∧ (wait_for_qrcode (fun _ => none) (0 + 100) 0).1 =
          (pollTimes (0 + 100) 0).findSome? (fun _ => none)) :=
  ⟨by decide, C8_wait_amended (fun _ => none) 0 100 (by decide)⟩

end PiboothGallery
